import Mathlib

/-!
Shallow embedding of the word-game engine in src/main.py (Telegram word game
bot).  Pure Lean translations of the game-state mutating code paths: the
GameState class (next_turn, get_turn_time, reset_streak, reset), the
timeout handler handle_turn_timeout, the forfeit command, the hint / rebound
boost commands, begin_game and the word-submission part of handle_message.

Randomness (random.choice / random.randint) is modelled by passing the drawn
values in explicitly (structure Draws; a draw stream Nat -> Draws where a
code path performs several draws).  External collaborators (the sqlite
inventory and stats tables) are modelled as explicit inputs (entitlement
counts) and outputs (event fields on the result structures).  Python sets
are modelled as duplicate-free lists (insertion only adds an element not
already present), and dicts keyed by user id as association lists.
-/

/-- Words are modelled as character lists (Lean's packed String functions
do not reduce under kernel evaluation, and Python indexes strings as
character sequences anyway). -/
abbrev Word := List Char

/-- Convenience conversion for concrete fixtures. -/
def wd (s : String) : Word := s.toList

/-- Python startswith with a one-character argument: the first character
equals it (False on the empty string). -/
def startsWithChar (w : Word) (c : Char) : Bool :=
  match w with
  | [] => false
  | a :: _ => a == c

/-- Python str.strip(): drop leading and trailing whitespace. -/
def pyStrip (w : Word) : Word :=
  ((w.dropWhile Char.isWhitespace).reverse.dropWhile Char.isWhitespace).reverse

/-- Python str.lower(), characterwise. -/
def pyLower (w : Word) : Word := w.map Char.toLower

/-- A roster entry: the dicts appended by lobby/join in src/main.py
(fields id, name, username). -/
structure Player where
  id : Nat
  name : String
  username : String
deriving DecidableEq, Repr

/-- One bundle of random draws: the random.choice(string.ascii_lowercase)
letter and the random.randint(3, 12) length used by chaos mode. -/
structure Draws where
  letter : Char
  chaosLength : Nat
deriving DecidableEq, Repr

/-- The mutable state of class GameState (src/main.py lines 600-635)
restricted to the fields the game-logic claims touch.  timeout_task is
modelled as the user id the armed timer was created for (none = no armed
timer); booster_limits is only ever compared against -1 in the boost
commands, so it is modelled by the three *_disabled flags. -/
structure GameState where
  is_running : Bool
  is_lobby_open : Bool
  players : List Player
  current_player_index : Nat
  current_word_length : Nat
  current_start_letter : Char
  used_words : List Word
  turn_count : Nat
  dictionary : List Word
  player_streaks : List (Nat × Nat)
  eliminated_players : List Nat
  last_word_length : Nat
  difficulty_level : Nat
  current_turn_user_id : Option Nat
  timeout_task : Option Nat
  is_practice : Bool
  is_cpu_game : Bool
  game_mode : String
  hint_disabled : Bool
  skip_disabled : Bool
  rebound_disabled : Bool
deriving DecidableEq, Repr

/-- player_streaks.get(user_id, 0) -/
def getStreak (s : List (Nat × Nat)) (uid : Nat) : Nat :=
  match s.find? (fun p => p.1 == uid) with
  | some p => p.2
  | none => 0

/-- user_id in player_streaks -/
def hasStreak (s : List (Nat × Nat)) (uid : Nat) : Bool :=
  (s.find? (fun p => p.1 == uid)).isSome

/-- player_streaks[user_id] = v (dict assignment: overwrite or insert). -/
def setStreak (s : List (Nat × Nat)) (uid v : Nat) : List (Nat × Nat) :=
  if hasStreak s uid then
    s.map (fun p => if p.1 == uid then (p.1, v) else p)
  else
    (uid, v) :: s

/-- Python set.add for the eliminated_players / used_words sets, on the
duplicate-free list model. -/
def setAdd {α : Type} [BEq α] (l : List α) (x : α) : List α :=
  if l.contains x then l else x :: l

/-- GameState.next_turn (src/main.py lines 694-718).  Advances the turn
index, bumps the turn counter, regenerates the challenge unless
preserve_challenge is set (chaos mode: random length 3-12; nerd mode:
min(3 + turn_count // num_players, 15)), and bumps difficulty_level every
6th turn.  Returns the new state and the difficulty_increased flag. -/
def GameState.next_turn (g : GameState) (preserve_challenge : Bool) (d : Draws) :
    GameState × Bool :=
  let idx := (g.current_player_index + 1) % g.players.length
  let tc := g.turn_count + 1
  let (letter, len) :=
    if preserve_challenge then
      (g.current_start_letter, g.current_word_length)
    else if g.game_mode == "chaos" then
      (d.letter, d.chaosLength)
    else
      let num_players := if g.players.isEmpty then 1 else g.players.length
      (d.letter, min (3 + tc / num_players) 15)
  let difficulty_increased := tc % 6 == 0
  ({ g with
      current_player_index := idx
      turn_count := tc
      current_start_letter := letter
      current_word_length := len
      difficulty_level :=
        if difficulty_increased then g.difficulty_level + 1 else g.difficulty_level
      last_word_length := len },
   difficulty_increased)

/-- GameState.get_turn_time (src/main.py lines 720-723):
max(5, 30 - difficulty_level * 5).  Python computes 30 - 5*d in ZZ before
the max; Nat subtraction truncates at 0, but both land on the same value
because the floor 5 dominates whenever 30 - 5*d <= 0. -/
def GameState.get_turn_time (g : GameState) : Nat :=
  max 5 (30 - g.difficulty_level * 5)

/-- GameState.cancel_timeout (src/main.py lines 725-728). -/
def GameState.cancel_timeout (g : GameState) : GameState :=
  { g with timeout_task := none }

/-- GameState.reset_streak (src/main.py lines 736-745).  streak_protect is
the player's external inventory count of streak protections; the returned
flag records whether db.use_boost(user_id, streak_protect) was called. -/
def GameState.reset_streak (g : GameState) (uid : Nat) (streak_protect : Nat) :
    GameState × Bool :=
  if hasStreak g.player_streaks uid then
    if streak_protect > 0 then
      (g, true)
    else
      ({ g with player_streaks := setStreak g.player_streaks uid 0 }, false)
  else
    (g, false)

/-- GameState.increment_streak (src/main.py lines 733-734). -/
def GameState.increment_streak (g : GameState) (uid : Nat) : GameState :=
  { g with player_streaks := setStreak g.player_streaks uid (getStreak g.player_streaks uid + 1) }

/-- GameState.reset (src/main.py lines 661-682).  The difficulty string is
always medium after reset, whose start_length is 3; the fresh
current_start_letter is a random draw, passed in as letter.  Cancels any
armed timer.  Does not touch dictionary, game_mode, is_practice or
current_turn_user_id (the Python method does not assign them). -/
def GameState.reset (g : GameState) (letter : Char) : GameState :=
  { g with
    is_running := false
    is_lobby_open := false
    players := []
    current_player_index := 0
    current_word_length := 3
    current_start_letter := letter
    used_words := []
    turn_count := 0
    player_streaks := []
    eliminated_players := []
    last_word_length := 3
    difficulty_level := 0
    timeout_task := none
    hint_disabled := false
    skip_disabled := false
    rebound_disabled := false }

/-- The dictionary candidates for a challenge: words of the required length
starting with the required letter and not yet used (the comprehension in
GameState.get_cpu_word, src/main.py line 755). -/
def candidates (dict used : List Word) (len : Nat) (letter : Char) : List Word :=
  dict.filter (fun w => w.length == len && startsWithChar w letter
    && !(used.contains w))

/-- The advance-past-eliminated-players loop shared by handle_turn_timeout
(src/main.py lines 889-895, bounded by len(players) iterations) and
forfeit_command (lines 1284-1287, an unbounded while loop).  Each pass
looks at the player seated at the current index and, if eliminated, runs
next_turn() with a fresh draw (ds k) and repeats.  fuel is
len(game.players) at the bounded call site; at the forfeit call site the
Python loop is unbounded but the caller guarantees an alive player exists,
which (proved below) makes len(game.players) rounds of fuel enough to
reach it, so the fuel never runs out there. -/
def skipElim (g : GameState) (ds : Nat → Draws) (k : Nat) : Nat → GameState
  | 0 => g
  | fuel + 1 =>
    match g.players[g.current_player_index]? with
    | none => g
    | some p =>
      if g.eliminated_players.contains p.id then
        skipElim (g.next_turn false (ds k)).1 ds (k + 1) fuel
      else g

/-- Externally visible outcome of one run of the timeout callback body
(everything after the asyncio.sleep in handle_turn_timeout,
src/main.py lines 844-915).  gamesPlayed lists the user ids passed to
db.increment_games_played, in order. -/
structure TimeoutResult where
  state : GameState
  timedOut : Bool
  winner : Option Player
  gamesPlayed : List Nat
  protectConsumed : Bool
deriving DecidableEq, Repr

/-- handle_turn_timeout after the sleep (src/main.py lines 844-915).
userId is the player the timer was armed for; protect their external
streak-protection count; ds the stream of random draws consumed by the
next_turn calls; resetLetter the draw consumed by game.reset().
The players[current_player_index] read happens before the staleness check;
on an out-of-range index Python raises IndexError which the surrounding
except swallows with no state change, modelled by the none branch. -/
def handle_turn_timeout (g : GameState) (userId : Nat) (protect : Nat)
    (ds : Nat → Draws) (resetLetter : Char) : TimeoutResult :=
  match g.players[g.current_player_index]? with
  | none => ⟨g, false, none, [], false⟩
  | some current_player =>
    if !g.is_running || current_player.id != userId then
      ⟨g, false, none, [], false⟩
    else
      let g1 := { g with eliminated_players := setAdd g.eliminated_players userId }
      let g2 := (g1.reset_streak userId protect).1
      let consumed := (g1.reset_streak userId protect).2
      let g3 := (g2.next_turn false (ds 0)).1
      if g3.players.length - 1 ≤ g3.eliminated_players.length then
        match g3.players.find? (fun p => !(g3.eliminated_players.contains p.id)) with
        | some winner =>
          ⟨g3.reset resetLetter, true, some winner, g3.players.map (·.id), consumed⟩
        | none =>
          ⟨g3.reset resetLetter, true, none, [], consumed⟩
      else
        let g4 := skipElim g3 ds 1 g3.players.length
        match g4.players[g4.current_player_index]? with
        | none => ⟨g4, true, none, [], consumed⟩
        | some next_player =>
          if g4.eliminated_players.contains next_player.id then
            ⟨g4.reset resetLetter, true, none, g4.players.map (·.id), consumed⟩
          else
            ⟨{ g4 with
                current_turn_user_id := some next_player.id
                timeout_task := some next_player.id }, true, none, [], consumed⟩

/-- Externally visible outcome of forfeit_command. -/
structure ForfeitResult where
  state : GameState
  accepted : Bool
  winner : Option Player
  gamesPlayed : List Nat
deriving DecidableEq, Repr

/-- forfeit_command (src/main.py lines 1254-1298).  Rejects unless a game
is running and the caller is the current player; otherwise cancels the
timer, eliminates the caller, resets their streak (subject to protection),
advances the turn and either ends the game (no games-played increments on
this path) or skips eliminated players and re-arms the timer. -/
def forfeit_command (g : GameState) (uid : Nat) (protect : Nat)
    (ds : Nat → Draws) (resetLetter : Char) : ForfeitResult :=
  if !g.is_running then ⟨g, false, none, []⟩
  else
    match g.players[g.current_player_index]? with
    | none => ⟨g, false, none, []⟩
    | some current_player =>
      if uid != current_player.id then ⟨g, false, none, []⟩
      else
        let g1 := g.cancel_timeout
        let g2 := { g1 with eliminated_players := setAdd g1.eliminated_players uid }
        let g3 := (g2.reset_streak uid protect).1
        let g4 := (g3.next_turn false (ds 0)).1
        if g4.players.length - 1 ≤ g4.eliminated_players.length then
          let winner := g4.players.find? (fun p => !(g4.eliminated_players.contains p.id))
          ⟨g4.reset resetLetter, true, winner, []⟩
        else
          let g5 := skipElim g4 ds 1 g4.players.length
          match g5.players[g5.current_player_index]? with
          | none => ⟨g5, true, none, []⟩
          | some next_player =>
            ⟨{ g5 with
                current_turn_user_id := some next_player.id
                timeout_task := some next_player.id }, true, none, []⟩

/-- begin_game (src/main.py lines 1027-1079), the game-state part.  Needs
an open lobby and at least 2 players; seeds every roster member's streak
entry, resets the per-game counters, draws the first challenge (length 3
in nerd mode, random 3-12 in chaos mode) and arms the timer for the
player at index 0. -/
def begin_game (g : GameState) (d : Draws) : GameState × Bool :=
  if !g.is_lobby_open then (g, false)
  else if g.players.length < 2 then (g, false)
  else
    let streaks := g.players.foldl
      (fun s p => if hasStreak s p.id then s else setStreak s p.id 0) g.player_streaks
    let len := if g.game_mode == "chaos" then d.chaosLength else 3
    match g.players[0]? with
    | none => (g, false)
    | some current_player =>
      ({ g with
          player_streaks := streaks
          is_lobby_open := false
          is_running := true
          turn_count := 0
          current_player_index := 0
          eliminated_players := []
          used_words := []
          current_start_letter := d.letter
          current_word_length := len
          current_turn_user_id := some current_player.id
          timeout_task := some current_player.id }, true)

/-- The four rejection reasons of word validation, in the textual order of
src/main.py lines 2682-2696. -/
inductive Rejection
  | wrongLength
  | wrongLetter
  | alreadyUsed
  | notInDict
deriving DecidableEq, Repr

/-- Outcome of one inbound text message for the game (handle_message). -/
inductive MsgOutcome
  | ignored
  | rejected (r : Rejection)
  | accepted (word : Word) (streak : Nat)
deriving DecidableEq, Repr

/-- The game part of handle_message (src/main.py lines 2648-2753).
Silently ignores the message unless the game is running and the sender is
the current player; ignores multi-word messages; validates the lowered
word in order (length, first letter, not already used, in dictionary),
rejecting with the first failing reason and leaving the state untouched;
on success cancels the timer, records the word, bumps the streak,
advances the turn and re-arms the timer for the next player (except when
that player is the CPU, id 999999, whose turn is handled by a separate
task). -/
def handle_message (g : GameState) (uid : Nat) (text : Word) (d : Draws) :
    GameState × MsgOutcome :=
  if !g.is_running then (g, .ignored)
  else
    match g.players[g.current_player_index]? with
    | none => (g, .ignored)
    | some current_player =>
      if uid != current_player.id then (g, .ignored)
      else
        let word_raw := pyStrip text
        if word_raw.contains ' ' then (g, .ignored)
        else
          let word := pyLower word_raw
          if word.length != g.current_word_length then
            (g, .rejected .wrongLength)
          else if !(startsWithChar word g.current_start_letter) then
            (g, .rejected .wrongLetter)
          else if g.used_words.contains word then
            (g, .rejected .alreadyUsed)
          else if !g.dictionary.contains word then
            (g, .rejected .notInDict)
          else
            let g1 := g.cancel_timeout
            let g2 := { g1 with used_words := setAdd g1.used_words word }
            let g3 := g2.increment_streak uid
            let current_streak := getStreak g3.player_streaks uid
            let (g4, _) := g3.next_turn false d
            match g4.players[g4.current_player_index]? with
            | none => (g4, .accepted word current_streak)
            | some next_player =>
              let g5 := { g4 with current_turn_user_id := some next_player.id }
              let g6 :=
                if g5.is_cpu_game && next_player.id == 999999 then g5
                else { g5 with timeout_task := some next_player.id }
              (g6, .accepted word current_streak)

/-- hint_boost_command (src/main.py lines 1467-1499), game part.  invHint
is the external inventory count.  Returns the unchanged state and, when
the hint goes through, the up-to-3 word list shown to the player: the
first three dictionary words of the challenge length starting with the
challenge letter (used words are NOT excluded).  The game state is never
mutated; the boost is consumed externally only when the list is
non-empty. -/
def hint_boost_command (g : GameState) (uid : Nat) (invHint : Nat) :
    GameState × Option (List Word) :=
  if !g.is_running then (g, none)
  else
    match g.players[g.current_player_index]? with
    | none => (g, none)
    | some current_player =>
      if uid != current_player.id then (g, none)
      else if g.hint_disabled then (g, none)
      else if invHint == 0 then (g, none)
      else
        let words := (g.dictionary.filter (fun w =>
          w.length == g.current_word_length
            && startsWithChar w g.current_start_letter)).take 3
        if words.isEmpty then (g, none) else (g, some words)

/-- rebound_boost_command (src/main.py lines 1537-1568), game part.
invRebound is the external inventory count.  Consumes a rebound, cancels
the timer, advances the turn with preserve_challenge=True (same letter
and length) and re-arms the timer for the next player. -/
def rebound_boost_command (g : GameState) (uid : Nat) (invRebound : Nat) (d : Draws) :
    GameState × Bool :=
  if !g.is_running then (g, false)
  else
    match g.players[g.current_player_index]? with
    | none => (g, false)
    | some current_player =>
      if uid != current_player.id then (g, false)
      else if g.rebound_disabled then (g, false)
      else if invRebound == 0 then (g, false)
      else
        let g1 := g.cancel_timeout
        let (g2, _) := g1.next_turn true d
        match g2.players[g2.current_player_index]? with
        | none => (g2, true)
        | some next_player =>
          ({ g2 with
              current_turn_user_id := some next_player.id
              timeout_task := some next_player.id }, true)

/-! Concrete fixtures used by witnesses and counterexamples. -/

def pA : Player := ⟨1, "A", "A"⟩

def pB : Player := ⟨2, "B", "B"⟩

def pC : Player := ⟨3, "C", "C"⟩

/-- A running two-player nerd-mode game, fresh after begin: player A (id 1)
to move, challenge (3, c). -/
def g0 : GameState :=
  { is_running := true, is_lobby_open := false,
    players := [pA, pB], current_player_index := 0,
    current_word_length := 3, current_start_letter := 'c',
    used_words := [], turn_count := 0,
    dictionary := [wd "cat", wd "cow"],
    player_streaks := [(1, 0), (2, 0)],
    eliminated_players := [], last_word_length := 3, difficulty_level := 0,
    current_turn_user_id := some 1, timeout_task := some 1,
    is_practice := false, is_cpu_game := false, game_mode := "nerd",
    hint_disabled := false, skip_disabled := false, rebound_disabled := false }

/-- Three-player variant of g0 in which player B (id 2) is already
eliminated and A is to move. -/
def g3c : GameState := { g0 with
  players := [pA, pB, pC],
  player_streaks := [(1, 0), (2, 0), (3, 0)],
  eliminated_players := [2] }

/-! ## Claim C1 -/

/-- Claim C1: a timer-expiry callback that runs for a turn that has already
completed (the game is no longer running, or the current turn's player is
not the player the timer was armed for) performs no externally visible
effect: the state is returned unchanged, nobody is eliminated, no streak
is reset, the turn does not advance, no winner is announced and no stats
fire.  This is the staleness guard at src/main.py lines 848-850. -/
theorem C1_stale_timeout_noop (g : GameState) (userId protect : Nat)
    (ds : Nat → Draws) (c : Char)
    (h : ∀ cp, g.players[g.current_player_index]? = some cp →
      g.is_running = false ∨ cp.id ≠ userId) :
    handle_turn_timeout g userId protect ds c = ⟨g, false, none, [], false⟩ := by
  unfold handle_turn_timeout
  cases hcp : g.players[g.current_player_index]? with
  | none => rfl
  | some cp =>
    have hb : (!g.is_running || cp.id != userId) = true := by
      rcases h cp hcp with h1 | h1
      · simp [h1]
      · simp [h1]
    simp only [hb, if_pos]

/-- Witness for C1: in the running game g0 it is player A's (id 1) turn, so
a timeout callback armed for player B (id 2) is a no-op. -/
theorem C1_witness :
    handle_turn_timeout g0 2 0 (fun _ => ⟨'a', 3⟩) 'a' = ⟨g0, false, none, [], false⟩ :=
  C1_stale_timeout_noop g0 2 0 (fun _ => ⟨'a', 3⟩) 'a' (by
    intro cp hcp
    right
    have : cp = pA := by
      simpa [g0] using hcp.symm
    simp [this, pA])

/-! ## Claim C10 -/

/-- Updating a streak entry rewrites exactly the entries keyed by uid. -/
theorem find?_map_setStreak (s : List (Nat × Nat)) (uid v : Nat) :
    (s.map (fun p => if p.1 == uid then (p.1, v) else p)).find? (fun p => p.1 == uid)
      = (s.find? (fun p => p.1 == uid)).map (fun p => (p.1, v)) := by
  induction s with
  | nil => rfl
  | cons a t ih =>
    by_cases h : a.1 = uid
    · simp only [List.map_cons, List.find?_cons]
      simp [h]
    · have hb : (a.1 == uid) = false := by simpa using h
      have hb2 : ((if (a.1 == uid) then ((a.1, v) : Nat × Nat) else a).1 == uid) = false := by
        simp [hb]
      simp only [List.map_cons, List.find?_cons, hb, hb2, Bool.false_eq_true, if_false]
      exact ih

/-- Reading back a streak value just written. -/
theorem getStreak_setStreak (s : List (Nat × Nat)) (uid v : Nat) :
    getStreak (setStreak s uid v) uid = v := by
  unfold getStreak setStreak
  by_cases h : hasStreak s uid
  · simp only [h, if_true, find?_map_setStreak]
    cases hf : s.find? (fun p => p.1 == uid) with
    | none => unfold hasStreak at h; simp [hf] at h
    | some p => simp
  · simp [h, List.find?]

/-- Claim C10: when a streak reset fires (forfeit or timeout), a player
holding at least one streak-protection entitlement has one consumed and
their streak counter (indeed the whole game state) left unchanged; the
streak is written to 0 exactly when the player has a streak entry and no
protection; a player with no streak entry is untouched and consumes
nothing (GameState.reset_streak, src/main.py lines 736-745). -/
theorem C10_streak_protection (g : GameState) (uid protect : Nat) :
    (hasStreak g.player_streaks uid = true → 0 < protect →
      g.reset_streak uid protect = (g, true)) ∧
    (hasStreak g.player_streaks uid = true → protect = 0 →
      g.reset_streak uid protect =
        ({ g with player_streaks := setStreak g.player_streaks uid 0 }, false) ∧
      getStreak (g.reset_streak uid protect).1.player_streaks uid = 0) ∧
    (hasStreak g.player_streaks uid = false →
      g.reset_streak uid protect = (g, false)) := by
  unfold GameState.reset_streak
  refine ⟨?_, ?_, ?_⟩
  · intro h hp
    simp [h, hp]
  · intro h hp
    subst hp
    simp [h, getStreak_setStreak]
  · intro h
    simp [h]

/-- Witness for C10: in g0, player 1 has a streak entry; with one
protection the reset is a no-op that consumes it, with none the streak is
zeroed; user 5 has no entry and nothing happens. -/
theorem C10_witness :
    (g0.reset_streak 1 1 = (g0, true)) ∧
    (g0.reset_streak 1 0 =
      ({ g0 with player_streaks := setStreak g0.player_streaks 1 0 }, false)) ∧
    (g0.reset_streak 5 3 = (g0, false)) :=
  ⟨(C10_streak_protection g0 1 1).1 (by decide) (by decide),
   ((C10_streak_protection g0 1 0).2.1 (by decide) rfl).1,
   (C10_streak_protection g0 5 3).2.2 (by decide)⟩

/-! ## Claim C2 -/

/-- The fallback word set of GameState.use_fallback_dictionary
(src/main.py lines 652-659). -/
def fallback_dictionary : List Word :=
  [wd "cat", wd "dog", wd "bat", wd "rat", wd "hat", wd "mat", wd "sat", wd "pat",
   wd "bird", wd "word", wd "nerd", wd "curd", wd "herd", wd "blue", wd "glue",
   wd "apple", wd "board", wd "chair", wd "dance", wd "eagle", wd "fruit",
   wd "banana", wd "friend", wd "orange", wd "purple", wd "school",
   wd "elephant", wd "giraffe", wd "internet", wd "keyboard"]

/-- g0 running on the built-in fallback dictionary. -/
def gFall : GameState := { g0 with dictionary := fallback_dictionary }

/-- A freshly generated (non-preserved) challenge is exactly the drawn
letter together with the mode formula for the length (chaos: the drawn
randint(3,12); nerd: min(3 + turn_count // num_players, 15)); nothing is
re-drawn or checked. -/
theorem next_turn_fresh (g : GameState) (d : Draws) :
    ((g.next_turn false d).1.current_start_letter = d.letter) ∧
    ((g.next_turn false d).1.current_word_length =
      if g.game_mode == "chaos" then d.chaosLength
      else min (3 + (g.turn_count + 1) /
        (if g.players.isEmpty then 1 else g.players.length)) 15) := by
  by_cases h : (g.game_mode == "chaos") = true <;>
    simp [GameState.next_turn, h]

/-- next_turn leaves the roster, mode, elimination set, running flag,
used words, streaks, dictionary and timer alone, and steps the index and
turn counter. -/
theorem next_turn_frame (g : GameState) (pres : Bool) (d : Draws) :
    ((g.next_turn pres d).1.players = g.players) ∧
    ((g.next_turn pres d).1.game_mode = g.game_mode) ∧
    ((g.next_turn pres d).1.turn_count = g.turn_count + 1) ∧
    ((g.next_turn pres d).1.current_player_index =
      (g.current_player_index + 1) % g.players.length) ∧
    ((g.next_turn pres d).1.eliminated_players = g.eliminated_players) ∧
    ((g.next_turn pres d).1.is_running = g.is_running) ∧
    ((g.next_turn pres d).1.used_words = g.used_words) ∧
    ((g.next_turn pres d).1.player_streaks = g.player_streaks) ∧
    ((g.next_turn pres d).1.dictionary = g.dictionary) ∧
    ((g.next_turn pres d).1.timeout_task = g.timeout_task) ∧
    ((g.next_turn pres d).1.is_cpu_game = g.is_cpu_game) := by
  cases pres <;> by_cases h : (g.game_mode == "chaos") = true <;>
    simp [GameState.next_turn, h]

/-- Counterexample to claim C2: in the running nerd-mode game gFall (on
the built-in fallback dictionary) a next_turn that draws the letter z
produces the challenge (3, z), which has no unused dictionary word at
all, and is not the alleged safe fallback (3, a): challenge generation in
GameState.next_turn (src/main.py lines 698-710) never retries, never
consults the dictionary or the used-words set, and has no fallback. -/
theorem C2_counterexample :
    candidates (gFall.next_turn false ⟨'z', 5⟩).1.dictionary
        (gFall.next_turn false ⟨'z', 5⟩).1.used_words
        (gFall.next_turn false ⟨'z', 5⟩).1.current_word_length
        (gFall.next_turn false ⟨'z', 5⟩).1.current_start_letter = [] ∧
    ¬((gFall.next_turn false ⟨'z', 5⟩).1.current_word_length = 3 ∧
      (gFall.next_turn false ⟨'z', 5⟩).1.current_start_letter = 'a') := by
  constructor
  · decide
  · intro h
    exact absurd h.2 (by decide)

/-- Claim C2 amended: challenge generation performs a single unchecked
draw: the new letter is the drawn letter and the new length comes from
the mode formula alone; the outcome is identical whatever the dictionary
and used-words set are (so there is no retry, no solvability check and no
(3, a) fallback, and a generated challenge can be unsolvable, as the
counterexample shows). -/
theorem C2_generation_unchecked (g : GameState) (d : Draws)
    (dict used : List Word) :
    ((g.next_turn false d).1.current_start_letter = d.letter) ∧
    ((g.next_turn false d).1.current_word_length =
      if g.game_mode == "chaos" then d.chaosLength
      else min (3 + (g.turn_count + 1) /
        (if g.players.isEmpty then 1 else g.players.length)) 15) ∧
    (({ g with dictionary := dict, used_words := used }).next_turn false d).1.current_start_letter
      = (g.next_turn false d).1.current_start_letter ∧
    (({ g with dictionary := dict, used_words := used }).next_turn false d).1.current_word_length
      = (g.next_turn false d).1.current_word_length := by
  refine ⟨(next_turn_fresh g d).1, (next_turn_fresh g d).2, ?_, ?_⟩
  · rw [(next_turn_fresh _ d).1, (next_turn_fresh g d).1]
  · rw [(next_turn_fresh _ d).2, (next_turn_fresh g d).2]

/-! ## Claim C8 -/

/-- g0 with player B to move on turn 1: the next advance wraps the index
back to 0. -/
def g8 : GameState := { g0 with current_player_index := 1, turn_count := 1 }

/-- Counterexample to claim C8: in g8 the turn index wraps back to 0 on
this advance, yet the difficulty counter driving the turn-time formula
does not increment (it only increments when turn_count hits a multiple
of 6, src/main.py line 712), and the turn time is unchanged. -/
theorem C8_counterexample :
    ((g8.next_turn false ⟨'a', 3⟩).1.current_player_index = 0) ∧
    ((g8.next_turn false ⟨'a', 3⟩).2 = false) ∧
    ((g8.next_turn false ⟨'a', 3⟩).1.difficulty_level = g8.difficulty_level) ∧
    ((g8.next_turn false ⟨'a', 3⟩).1.get_turn_time = g8.get_turn_time) := by
  decide

/-- Claim C8 amended: the turn time is max(5, 30 - difficulty_level * 5)
(floor 5, base 30, decrement 5); the counter driving it increments
exactly when the post-increment turn counter is a multiple of 6 (every
6th turn, regardless of roster size or index wraps); consequently the
turn time never increases across a turn advance. -/
theorem C8_turn_time_formula (g : GameState) (pres : Bool) (d : Draws) :
    (g.get_turn_time = max 5 (30 - g.difficulty_level * 5)) ∧
    ((g.next_turn pres d).1.difficulty_level =
      if (g.turn_count + 1) % 6 = 0 then g.difficulty_level + 1
      else g.difficulty_level) ∧
    ((g.next_turn pres d).1.get_turn_time ≤ g.get_turn_time) := by
  have hd : (g.next_turn pres d).1.difficulty_level =
      if (g.turn_count + 1) % 6 = 0 then g.difficulty_level + 1
      else g.difficulty_level := by
    by_cases h : (g.turn_count + 1) % 6 = 0 <;>
      cases pres <;> by_cases hm : (g.game_mode == "chaos") = true <;>
        simp [GameState.next_turn, h, hm]
  refine ⟨rfl, hd, ?_⟩
  unfold GameState.get_turn_time
  rw [hd]
  have hmono : ∀ d1 d2 : Nat, d1 ≤ d2 → max 5 (30 - d2 * 5) ≤ max 5 (30 - d1 * 5) := by
    intro d1 d2 hle
    rw [Nat.max_def, Nat.max_def]
    split_ifs <;> omega
  by_cases h : (g.turn_count + 1) % 6 = 0
  · rw [if_pos h]
    exact hmono _ _ (Nat.le_succ _)
  · rw [if_neg h]

/-! ## Claim C9 -/

/-- g0 where the only dictionary word matching the live challenge has
already been used. -/
def g9 : GameState := { g0 with dictionary := [wd "cat"], used_words := [wd "cat"] }

/-- g0 with four dictionary words matching the live challenge. -/
def g9b : GameState := { g0 with dictionary := [wd "cat", wd "cow", wd "car", wd "cab"] }

/-- Counterexample to claim C9: in g9 the word cat is already in the
used-words set, yet the hint returns it anyway — the filter in
hint_boost_command (src/main.py line 1493) checks only length and first
letter, never the used-words set. -/
theorem C9_counterexample :
    (hint_boost_command g9 1 5).2 = some [wd "cat"] ∧
    g9.used_words.contains (wd "cat") = true := by
  decide

/-- The up-to-3 hint list: bounded by 3, and every entry is a dictionary
word matching the live challenge's length and first letter. -/
theorem hint_words_spec (dict : List Word) (L : Nat) (c : Char) :
    ((dict.filter (fun w => w.length == L && startsWithChar w c)).take 3).length ≤ 3 ∧
    ∀ w ∈ (dict.filter (fun w => w.length == L && startsWithChar w c)).take 3,
      w ∈ dict ∧ w.length = L ∧ startsWithChar w c = true := by
  constructor
  · calc ((dict.filter (fun w => w.length == L && startsWithChar w c)).take 3).length
        = min 3 (dict.filter (fun w => w.length == L && startsWithChar w c)).length :=
          List.length_take 3 _
      _ ≤ 3 := Nat.min_le_left _ _
  · intro w hw
    have hw' := List.mem_of_mem_take hw
    rw [List.mem_filter] at hw'
    obtain ⟨h1, h2⟩ := hw'
    rw [Bool.and_eq_true] at h2
    exact ⟨h1, by simpa using h2.1, h2.2⟩

/-- Claim C9 amended: when the current player applies a hint with at least
one entitlement, the returned words are at most 3 dictionary candidates
matching the live challenge's length and first letter (words already in
the used-words set are NOT excluded — see the counterexample), and the
game state is completely unchanged: no turn advance, no challenge change,
no timer change. -/
theorem C9_hint_frame_and_bound (g : GameState) (uid invHint : Nat) (cp : Player)
    (hrun : g.is_running = true)
    (hcp : g.players[g.current_player_index]? = some cp)
    (hid : cp.id = uid)
    (hdis : g.hint_disabled = false)
    (hinv : invHint ≠ 0) :
    (hint_boost_command g uid invHint).1 = g ∧
    ∀ ws, (hint_boost_command g uid invHint).2 = some ws →
      ws.length ≤ 3 ∧ ∀ w ∈ ws, w ∈ g.dictionary ∧ w.length = g.current_word_length ∧
        startsWithChar w g.current_start_letter = true := by
  subst hid
  have hinv' : (invHint == 0) = false := by simpa using hinv
  unfold hint_boost_command
  simp only [hrun, hcp, hdis, hinv', Bool.not_true, Bool.false_eq_true, if_false,
    bne_self_eq_false]
  constructor
  · split <;> rfl
  · intro ws hws
    split at hws
    · exact absurd hws (by simp)
    · have : ws = (g.dictionary.filter (fun w =>
          w.length == g.current_word_length
            && startsWithChar w g.current_start_letter)).take 3 := by
        injection hws with h
        exact h.symm
      subst this
      exact hint_words_spec g.dictionary g.current_word_length g.current_start_letter

/-- Witness for C9's amended theorem at the concrete game g9b. -/
theorem C9_witness :
    (hint_boost_command g9b 1 2).1 = g9b ∧
    ((wd "cat") ∈ g9b.dictionary ∧ (wd "cat").length = g9b.current_word_length ∧
      startsWithChar (wd "cat") g9b.current_start_letter = true) := by
  have h := C9_hint_frame_and_bound g9b 1 2 pA rfl rfl rfl rfl (by decide)
  exact ⟨h.1, (h.2 [wd "cat", wd "cow", wd "car"] (by decide)).2 (wd "cat") (by decide)⟩

/-! ## Claim C5 -/

/-- Claim C5: for a word submission by the current turn's player (a
single-word message), validation runs in the order length, first letter,
not already used, in dictionary; the first failing check produces the
corresponding rejection and the game state is returned completely
unchanged (turn not advanced, nothing mutated), so the player can retry
(src/main.py lines 2682-2696). -/
theorem C5_validation_order (g : GameState) (uid : Nat) (text : Word) (d : Draws)
    (cp : Player)
    (hrun : g.is_running = true)
    (hcp : g.players[g.current_player_index]? = some cp)
    (hid : cp.id = uid)
    (hsp : ' ' ∉ pyStrip text) :
    ((pyLower (pyStrip text)).length ≠ g.current_word_length →
      handle_message g uid text d = (g, .rejected .wrongLength)) ∧
    ((pyLower (pyStrip text)).length = g.current_word_length →
      startsWithChar (pyLower (pyStrip text)) g.current_start_letter = false →
      handle_message g uid text d = (g, .rejected .wrongLetter)) ∧
    ((pyLower (pyStrip text)).length = g.current_word_length →
      startsWithChar (pyLower (pyStrip text)) g.current_start_letter = true →
      pyLower (pyStrip text) ∈ g.used_words →
      handle_message g uid text d = (g, .rejected .alreadyUsed)) ∧
    ((pyLower (pyStrip text)).length = g.current_word_length →
      startsWithChar (pyLower (pyStrip text)) g.current_start_letter = true →
      pyLower (pyStrip text) ∉ g.used_words →
      pyLower (pyStrip text) ∉ g.dictionary →
      handle_message g uid text d = (g, .rejected .notInDict)) := by
  subst hid
  refine ⟨?_, ?_, ?_, ?_⟩
  · intro h1
    have hb1 : ((pyLower (pyStrip text)).length != g.current_word_length) = true := by
      simpa using h1
    simp [handle_message, hrun, hcp, hsp, hb1]
  · intro h1 h2
    have hb1 : ((pyLower (pyStrip text)).length != g.current_word_length) = false := by
      simpa using h1
    simp [handle_message, hrun, hcp, hsp, hb1, h2]
  · intro h1 h2 h3
    have hb1 : ((pyLower (pyStrip text)).length != g.current_word_length) = false := by
      simpa using h1
    simp [handle_message, hrun, hcp, hsp, hb1, h2, h3]
  · intro h1 h2 h3 h4
    have hb1 : ((pyLower (pyStrip text)).length != g.current_word_length) = false := by
      simpa using h1
    simp [handle_message, hrun, hcp, hsp, hb1, h2, h3, h4]

/-- Witness for C5 at g0: the in-dictionary word dog has the right length
but the wrong first letter, and is rejected with exactly that reason,
leaving the state unchanged. -/
theorem C5_witness :
    handle_message g0 1 (wd "dog") ⟨'a', 3⟩ = (g0, .rejected .wrongLetter) :=
  (C5_validation_order g0 1 (wd "dog") ⟨'a', 3⟩ pA rfl rfl rfl (by decide)).2.1
    (by decide) (by decide)

/-! ## Claim C6 -/

/-- A preserved (rebound) advance keeps the live challenge exactly. -/
theorem next_turn_preserved (g : GameState) (d : Draws) :
    ((g.next_turn true d).1.current_word_length = g.current_word_length) ∧
    ((g.next_turn true d).1.current_start_letter = g.current_start_letter) := by
  simp [GameState.next_turn]

/-- Claim C6: a rebound by the current player (with an entitlement, boost
not disabled) consumes the boost and advances the turn by one while
leaving the challenge's length and letter exactly as they were, so the
next player faces the identical pair; the very next non-preserved advance
regenerates the challenge from the fresh draw and the mode formula alone
(rebound_boost_command with preserve_challenge=True, src/main.py lines
1559-1568 and 694-711). -/
theorem C6_rebound_preserves_challenge (g : GameState) (uid invRebound : Nat)
    (d d2 : Draws) (cp : Player)
    (hrun : g.is_running = true)
    (hcp : g.players[g.current_player_index]? = some cp)
    (hid : cp.id = uid)
    (hdis : g.rebound_disabled = false)
    (hinv : invRebound ≠ 0) :
    ((rebound_boost_command g uid invRebound d).2 = true) ∧
    ((rebound_boost_command g uid invRebound d).1.current_word_length
      = g.current_word_length) ∧
    ((rebound_boost_command g uid invRebound d).1.current_start_letter
      = g.current_start_letter) ∧
    ((rebound_boost_command g uid invRebound d).1.current_player_index
      = (g.current_player_index + 1) % g.players.length) ∧
    ((rebound_boost_command g uid invRebound d).1.turn_count = g.turn_count + 1) ∧
    ((((rebound_boost_command g uid invRebound d).1.next_turn false d2).1.current_start_letter
      = d2.letter)) ∧
    ((((rebound_boost_command g uid invRebound d).1.next_turn false d2).1.current_word_length
      = if g.game_mode == "chaos" then d2.chaosLength
        else min (3 + (g.turn_count + 2) /
          (if g.players.isEmpty then 1 else g.players.length)) 15)) := by
  subst hid
  have hinv' : (invRebound == 0) = false := by simpa using hinv
  unfold rebound_boost_command
  simp only [hrun, hcp, hdis, hinv', Bool.not_true, Bool.false_eq_true, if_false,
    bne_self_eq_false]
  rcases hm : ((g.cancel_timeout.next_turn true d).1.players[(g.cancel_timeout.next_turn true d).1.current_player_index]?) with _ | np <;>
    simp only [hm] <;>
    by_cases hmode : (g.game_mode == "chaos") = true <;>
      simp [GameState.next_turn, GameState.cancel_timeout, hmode]

/-- Witness for C6 at g0 with the concrete draws (z, 7) and (q, 9). -/
theorem C6_witness :
    ((rebound_boost_command g0 1 1 ⟨'z', 7⟩).2 = true) ∧
    ((rebound_boost_command g0 1 1 ⟨'z', 7⟩).1.current_word_length
      = g0.current_word_length) ∧
    ((rebound_boost_command g0 1 1 ⟨'z', 7⟩).1.current_start_letter
      = g0.current_start_letter) ∧
    ((rebound_boost_command g0 1 1 ⟨'z', 7⟩).1.current_player_index
      = (g0.current_player_index + 1) % g0.players.length) ∧
    ((rebound_boost_command g0 1 1 ⟨'z', 7⟩).1.turn_count = g0.turn_count + 1) ∧
    ((((rebound_boost_command g0 1 1 ⟨'z', 7⟩).1.next_turn false ⟨'q', 9⟩).1.current_start_letter
      = 'q')) ∧
    ((((rebound_boost_command g0 1 1 ⟨'z', 7⟩).1.next_turn false ⟨'q', 9⟩).1.current_word_length
      = if g0.game_mode == "chaos" then (9 : Nat)
        else min (3 + (g0.turn_count + 2) /
          (if g0.players.isEmpty then 1 else g0.players.length)) 15)) :=
  C6_rebound_preserves_challenge g0 1 1 ⟨'z', 7⟩ ⟨'q', 9⟩ pA rfl rfl rfl rfl
    (by decide)

/-! ## Claim C7 -/

/-- The two-player lobby about to begin, nerd mode. -/
def gLobby : GameState := { g0 with
  is_running := false,
  is_lobby_open := true,
  current_turn_user_id := none,
  timeout_task := none }

/-- Claim C7: in progressive (nerd) mode the regenerated challenge length
is min(3 + completed_rounds, 15) with completed_rounds = turn_count //
roster size; the first challenge after begin() has length 3; and in the
concrete two-player scenario (gLobby, begin, player A submits cat) the
word is accepted with streak 1, the turn passes to player B, and the
regenerated challenge still has length 3 because the round is not yet
complete (src/main.py lines 706-710 and 1054-1059). -/
theorem C7_progressive_length (g : GameState) (d : Draws)
    (hmode : g.game_mode = "nerd") :
    ((g.next_turn false d).1.current_word_length =
      min (3 + (g.turn_count + 1) /
        (if g.players.isEmpty then 1 else g.players.length)) 15) ∧
    (g.is_lobby_open = true → 2 ≤ g.players.length →
      (begin_game g d).1.current_word_length = 3) ∧
    ((handle_message (begin_game gLobby ⟨'c', 9⟩).1 1 (wd "cat") ⟨'q', 9⟩).2
        = .accepted (wd "cat") 1 ∧
      (handle_message (begin_game gLobby ⟨'c', 9⟩).1 1 (wd "cat") ⟨'q', 9⟩).1.current_word_length
        = 3 ∧
      (handle_message (begin_game gLobby ⟨'c', 9⟩).1 1 (wd "cat") ⟨'q', 9⟩).1.current_player_index
        = 1) := by
  have hmb : (g.game_mode == "chaos") = false := by
    rw [hmode]
    rfl
  refine ⟨?_, ?_, by decide⟩
  · have h2 := (next_turn_fresh g d).2
    rw [hmb] at h2
    simpa using h2
  · intro hlob hn
    unfold begin_game
    rw [hlob]
    cases hg : g.players[0]? with
    | none =>
      exfalso
      rw [List.getElem?_eq_none_iff] at hg
      omega
    | some p =>
      simp [if_neg (by omega : ¬g.players.length < 2), hg, hmb]

/-- Witness for C7: the running game g0 and the lobby gLobby, both nerd
mode with two players. -/
theorem C7_witness :
    ((g0.next_turn false ⟨'a', 3⟩).1.current_word_length =
      min (3 + (g0.turn_count + 1) /
        (if g0.players.isEmpty then 1 else g0.players.length)) 15) ∧
    (begin_game gLobby ⟨'a', 3⟩).1.current_word_length = 3 :=
  ⟨(C7_progressive_length g0 ⟨'a', 3⟩ rfl).1,
   (C7_progressive_length gLobby ⟨'a', 3⟩ rfl).2.1 rfl (by decide)⟩

/-! ## Claims C3 and C4: helper lemmas -/

/-- reset_streak touches only the streak table. -/
theorem reset_streak_proj (g : GameState) (uid pr : Nat) :
    ((g.reset_streak uid pr).1.players = g.players) ∧
    ((g.reset_streak uid pr).1.eliminated_players = g.eliminated_players) ∧
    ((g.reset_streak uid pr).1.current_player_index = g.current_player_index) ∧
    ((g.reset_streak uid pr).1.is_running = g.is_running) ∧
    ((g.reset_streak uid pr).1.turn_count = g.turn_count) ∧
    ((g.reset_streak uid pr).1.game_mode = g.game_mode) := by
  unfold GameState.reset_streak
  split_ifs <;> simp

/-- skipElim never changes the roster, the elimination set or the phase
flags; it only moves the index / challenge / counters via next_turn. -/
theorem skipElim_frame (fuel : Nat) : ∀ (g : GameState) (ds : Nat → Draws) (k : Nat),
    ((skipElim g ds k fuel).players = g.players) ∧
    ((skipElim g ds k fuel).eliminated_players = g.eliminated_players) ∧
    ((skipElim g ds k fuel).is_running = g.is_running) := by
  induction fuel with
  | zero => intro g ds k; exact ⟨rfl, rfl, rfl⟩
  | succ n ih =>
    intro g ds k
    unfold skipElim
    cases hp : g.players[g.current_player_index]? with
    | none => exact ⟨rfl, rfl, rfl⟩
    | some p =>
      by_cases he : g.eliminated_players.contains p.id = true
      · simp only [he, if_true]
        have hf := next_turn_frame g false (ds k)
        have := ih (g.next_turn false (ds k)).1 ds (k + 1)
        exact ⟨this.1.trans hf.1, this.2.1.trans hf.2.2.2.2.1,
          this.2.2.trans hf.2.2.2.2.2.1⟩
      · have he2 : p.id ∉ g.eliminated_players := by
          simpa using he
        simp [he2]

/-- If some roster position within fuel steps of the current index holds a
non-eliminated player, the skip loop stops on a non-eliminated player. -/
theorem skipElim_alive (fuel : Nat) : ∀ (g : GameState) (ds : Nat → Draws) (k : Nat),
    g.current_player_index < g.players.length →
    (∃ j, j < fuel ∧ ∃ p, g.players[(g.current_player_index + j) % g.players.length]? = some p ∧
        g.eliminated_players.contains p.id = false) →
    ∃ q, (skipElim g ds k fuel).players[(skipElim g ds k fuel).current_player_index]? = some q ∧
      (skipElim g ds k fuel).eliminated_players.contains q.id = false := by
  induction fuel with
  | zero =>
    intro g ds k _ h
    obtain ⟨j, hj, _⟩ := h
    omega
  | succ n ih =>
    intro g ds k hidx h
    have hn : 0 < g.players.length := Nat.lt_of_le_of_lt (Nat.zero_le _) hidx
    unfold skipElim
    cases hp : g.players[g.current_player_index]? with
    | none =>
      exfalso
      rw [List.getElem?_eq_none_iff] at hp
      omega
    | some p =>
      by_cases he : g.eliminated_players.contains p.id = true
      · simp only [he, if_true]
        obtain ⟨j, hj, q, hq, halive⟩ := h
        have hj0 : j ≠ 0 := by
          intro h0
          subst h0
          rw [Nat.add_zero, Nat.mod_eq_of_lt hidx, hp] at hq
          injection hq with hq
          subst hq
          have : (true : Bool) = false := he.symm.trans halive
          exact absurd this (by decide)
        have hf := next_turn_frame g false (ds k)
        apply ih (g.next_turn false (ds k)).1 ds (k + 1)
        · rw [hf.1, hf.2.2.2.1]
          exact Nat.mod_lt _ hn
        · refine ⟨j - 1, by omega, q, ?_, ?_⟩
          · rw [hf.1, hf.2.2.2.1]
            have hidxeq : ((g.current_player_index + 1) % g.players.length + (j - 1))
                % g.players.length = (g.current_player_index + j) % g.players.length := by
              rw [Nat.mod_add_mod]
              congr 1
              omega
            rw [hidxeq]
            exact hq
          · rw [hf.2.2.2.2.1]
            exact halive
      · simp only [Bool.not_eq_true] at he
        simp only [he, Bool.false_eq_true, if_false]
        exact ⟨p, hp, he⟩

/-- With strictly fewer eliminated ids than (distinct-id) roster members,
some roster member is not eliminated. -/
theorem exists_alive (players : List Player) (elim : List Nat)
    (hnd : (players.map Player.id).Nodup)
    (hlen : elim.length < players.length) :
    ∃ p ∈ players, elim.contains p.id = false := by
  by_contra hcon
  push_neg at hcon
  have hsubset : players.map Player.id ⊆ elim := by
    intro x hx
    rw [List.mem_map] at hx
    obtain ⟨p, hp, rfl⟩ := hx
    have hne := hcon p hp
    rcases Bool.eq_false_or_eq_true (elim.contains p.id) with hc | hc
    · simpa using hc
    · exact absurd hc hne
  have hle := (List.subperm_of_subset hnd hsubset).length_le
  rw [List.length_map] at hle
  omega

/-- Somewhere within one full rotation from the current index sits any
given roster member; in particular an alive one if one exists. -/
theorem exists_alive_offset (g : GameState)
    (hidx : g.current_player_index < g.players.length)
    (p : Player) (hp : p ∈ g.players)
    (halive : g.eliminated_players.contains p.id = false) :
    ∃ j, j < g.players.length ∧
      ∃ q, g.players[(g.current_player_index + j) % g.players.length]? = some q ∧
        g.eliminated_players.contains q.id = false := by
  obtain ⟨jp, hjp, hget⟩ := List.getElem_of_mem hp
  have hn : 0 < g.players.length := Nat.lt_of_le_of_lt (Nat.zero_le _) hidx
  refine ⟨(jp + g.players.length - g.current_player_index) % g.players.length,
    Nat.mod_lt _ hn, p, ?_, halive⟩
  have key : (g.current_player_index +
      (jp + g.players.length - g.current_player_index) % g.players.length)
        % g.players.length = jp := by
    conv_lhs => rw [Nat.add_mod, Nat.mod_mod_of_dvd _ dvd_rfl, ← Nat.add_mod]
    have h2 : g.current_player_index +
        (jp + g.players.length - g.current_player_index) = jp + g.players.length := by
      omega
    rw [h2, Nat.add_mod_right, Nat.mod_eq_of_lt hjp]
  rw [key, List.getElem?_eq_getElem hjp, hget]

/-- Timeout elimination in the continuing case (still at least two alive
players afterwards): the game keeps running, no winner is announced, no
games-played stats fire, and the skip loop leaves a non-eliminated player
at the current index. -/
theorem timeout_continuing_spec (g : GameState) (userId protect : Nat)
    (ds : Nat → Draws) (c : Char) (cp : Player)
    (hrun : g.is_running = true)
    (hcp : g.players[g.current_player_index]? = some cp)
    (hid : cp.id = userId)
    (hnd : (g.players.map Player.id).Nodup)
    (hcont : (setAdd g.eliminated_players userId).length < g.players.length - 1) :
    ((handle_turn_timeout g userId protect ds c).state.is_running = true) ∧
    ((handle_turn_timeout g userId protect ds c).winner = none) ∧
    ((handle_turn_timeout g userId protect ds c).gamesPlayed = []) ∧
    ((handle_turn_timeout g userId protect ds c).timedOut = true) ∧
    ∃ q, (handle_turn_timeout g userId protect ds c).state.players[
        (handle_turn_timeout g userId protect ds c).state.current_player_index]? = some q ∧
      (handle_turn_timeout g userId protect ds c).state.eliminated_players.contains q.id
        = false := by
  subst hid
  have hidx : g.current_player_index < g.players.length := by
    by_contra hge
    push_neg at hge
    rw [List.getElem?_eq_none hge] at hcp
    cases hcp
  have hguard : (!g.is_running || cp.id != cp.id) = false := by
    simp [hrun]
  unfold handle_turn_timeout
  simp only [hcp, hguard, Bool.false_eq_true, if_false]
  set g3 := ((({ g with eliminated_players := setAdd g.eliminated_players cp.id
    }).reset_streak cp.id protect).1.next_turn false (ds 0)).1 with hg3
  have hproj := reset_streak_proj
    ({ g with eliminated_players := setAdd g.eliminated_players cp.id }) cp.id protect
  have hf := next_turn_frame
    (({ g with eliminated_players := setAdd g.eliminated_players cp.id
      }).reset_streak cp.id protect).1 false (ds 0)
  have hp3 : g3.players = g.players := by
    rw [hg3, hf.1, hproj.1]
  have he3 : g3.eliminated_players = setAdd g.eliminated_players cp.id := by
    rw [hg3, hf.2.2.2.2.1, hproj.2.1]
  have hr3 : g3.is_running = true := by
    rw [hg3, hf.2.2.2.2.2.1, hproj.2.2.2.1]
    exact hrun
  have hi3 : g3.current_player_index =
      (g.current_player_index + 1) % g.players.length := by
    rw [hg3, hf.2.2.2.1, hproj.2.2.1, hproj.1]
  have hidx3 : g3.current_player_index < g3.players.length := by
    rw [hi3, hp3]
    exact Nat.mod_lt _ (Nat.lt_of_le_of_lt (Nat.zero_le _) hidx)
  have hwc : ¬(g3.players.length - 1 ≤ g3.eliminated_players.length) := by
    rw [hp3, he3]
    omega
  rw [if_neg hwc]
  obtain ⟨p, hpmem, halive⟩ := exists_alive g.players
    (setAdd g.eliminated_players cp.id) hnd (by omega)
  have hex := exists_alive_offset g3 hidx3 p (by rw [hp3]; exact hpmem)
    (by rw [he3]; exact halive)
  obtain ⟨q, hq, hqalive⟩ := skipElim_alive g3.players.length g3 ds 1 hidx3 hex
  have hsf := skipElim_frame g3.players.length g3 ds 1
  simp only [hq, hqalive, Bool.false_eq_true, if_false]
  refine ⟨?_, ?_, ?_, ?_, ⟨q, ?_, ?_⟩⟩ <;>
    first
      | trivial
      | (rw [hsf.2.2]; exact hr3)

/-! ## Claim C3 -/

/-- Counterexample to claim C3: in g3c (three players, B already
eliminated, A to move, game running with two alive players) A's accepted
word advances the turn exactly one seat — onto the eliminated player B —
because the accepted-word path of handle_message (src/main.py line 2721)
calls next_turn() once and never skips eliminated players.  So with >= 2
non-eliminated players remaining, the player at the current turn index IS
in the eliminated set after this turn-advancing operation. -/
theorem C3_counterexample :
    ((handle_message g3c 1 (wd "cat") ⟨'a', 3⟩).2 = .accepted (wd "cat") 1) ∧
    ((handle_message g3c 1 (wd "cat") ⟨'a', 3⟩).1.is_running = true) ∧
    ((handle_message g3c 1 (wd "cat") ⟨'a', 3⟩).1.players[
      (handle_message g3c 1 (wd "cat") ⟨'a', 3⟩).1.current_player_index]? = some pB) ∧
    ((handle_message g3c 1 (wd "cat") ⟨'a', 3⟩).1.eliminated_players.contains pB.id
      = true) ∧
    (2 ≤ ((handle_message g3c 1 (wd "cat") ⟨'a', 3⟩).1.players.filter
      (fun p => !((handle_message g3c 1 (wd "cat") ⟨'a', 3⟩).1.eliminated_players.contains
        p.id))).length) := by
  decide

/-- Claim C3 amended: only the elimination paths skip eliminated players.
After a timeout-driven elimination that leaves the game running (the
eliminated set stays below roster size - 1; roster ids distinct), the
player at the current turn index is not in the eliminated set.  The
accepted-word, skip and rebound paths advance exactly one seat with no
elimination check, so the original claim fails for them (see the
counterexample). -/
theorem C3_timeout_lands_on_alive (g : GameState) (userId protect : Nat)
    (ds : Nat → Draws) (c : Char) (cp : Player)
    (hrun : g.is_running = true)
    (hcp : g.players[g.current_player_index]? = some cp)
    (hid : cp.id = userId)
    (hnd : (g.players.map Player.id).Nodup)
    (hcont : (setAdd g.eliminated_players userId).length < g.players.length - 1) :
    ∃ q, (handle_turn_timeout g userId protect ds c).state.players[
        (handle_turn_timeout g userId protect ds c).state.current_player_index]? = some q ∧
      (handle_turn_timeout g userId protect ds c).state.eliminated_players.contains q.id
        = false ∧
      (handle_turn_timeout g userId protect ds c).state.is_running = true := by
  obtain ⟨h1, _, _, _, q, hq, ha⟩ :=
    timeout_continuing_spec g userId protect ds c cp hrun hcp hid hnd hcont
  exact ⟨q, hq, ha, h1⟩

/-- Fourth player for the C3 witness roster. -/
def pD : Player := ⟨4, "D", "D"⟩

/-- Four-player variant of g0, nobody eliminated, A to move. -/
def g4p : GameState := { g0 with
  players := [pA, pB, pC, pD],
  player_streaks := [(1, 0), (2, 0), (3, 0), (4, 0)] }

/-- Witness for C3's amended theorem: A times out in the four-player game
g4p; the game continues and the new current player is not eliminated. -/
theorem C3_witness :
    ∃ q, (handle_turn_timeout g4p 1 0 (fun _ => ⟨'a', 3⟩) 'a').state.players[
        (handle_turn_timeout g4p 1 0 (fun _ => ⟨'a', 3⟩) 'a').state.current_player_index]?
          = some q ∧
      (handle_turn_timeout g4p 1 0 (fun _ => ⟨'a', 3⟩)
        'a').state.eliminated_players.contains q.id = false ∧
      (handle_turn_timeout g4p 1 0 (fun _ => ⟨'a', 3⟩) 'a').state.is_running = true :=
  C3_timeout_lands_on_alive g4p 1 0 (fun _ => ⟨'a', 3⟩) 'a' pA rfl rfl rfl
    (by decide) (by decide)

/-! ## Claim C4 -/

/-- Counterexample to claim C4: in the two-player game g0 player A
forfeits; the elimination reaches roster size - 1, the game transitions
to Over and B is reported as winner — but NO games-played increment fires
for anybody: forfeit_command (src/main.py lines 1277-1282) has no
increment_games_played loop, unlike the timeout path (lines 883-884). -/
theorem C4_counterexample :
    ((forfeit_command g0 1 0 (fun _ => ⟨'a', 3⟩) 'a').winner = some pB) ∧
    ((forfeit_command g0 1 0 (fun _ => ⟨'a', 3⟩) 'a').state.is_running = false) ∧
    ((forfeit_command g0 1 0 (fun _ => ⟨'a', 3⟩) 'a').gamesPlayed = []) ∧
    g0.players ≠ [] := by
  decide

/-- Claim C4 amended: after a forfeit or timeout elimination by the
current player, the game transitions to Over exactly when the grown
eliminated set reaches roster size - 1; in the Over case both paths
report as winner the first non-eliminated roster member (at most once, an
Option), the timeout path fires one games-played increment per roster
member exactly when a winner exists, and the forfeit path never fires any
games-played increment; in the continuing case (distinct roster ids)
neither path ends the game, reports a winner, or fires stats. -/
theorem C4_game_over_exactly (g : GameState) (uid protect : Nat)
    (ds : Nat → Draws) (c : Char) (cp : Player)
    (hrun : g.is_running = true)
    (hcp : g.players[g.current_player_index]? = some cp)
    (hid : cp.id = uid) :
    (g.players.length - 1 ≤ (setAdd g.eliminated_players uid).length →
      ((handle_turn_timeout g uid protect ds c).state.is_running = false) ∧
      ((forfeit_command g uid protect ds c).state.is_running = false) ∧
      ((handle_turn_timeout g uid protect ds c).winner =
        g.players.find? (fun p => !((setAdd g.eliminated_players uid).contains p.id))) ∧
      ((forfeit_command g uid protect ds c).winner =
        g.players.find? (fun p => !((setAdd g.eliminated_players uid).contains p.id))) ∧
      (∀ w, (handle_turn_timeout g uid protect ds c).winner = some w →
        (handle_turn_timeout g uid protect ds c).gamesPlayed = g.players.map Player.id) ∧
      ((handle_turn_timeout g uid protect ds c).winner = none →
        (handle_turn_timeout g uid protect ds c).gamesPlayed = []) ∧
      ((forfeit_command g uid protect ds c).gamesPlayed = [])) ∧
    ((g.players.map Player.id).Nodup →
      (setAdd g.eliminated_players uid).length < g.players.length - 1 →
      ((handle_turn_timeout g uid protect ds c).state.is_running = true) ∧
      ((forfeit_command g uid protect ds c).state.is_running = true) ∧
      ((handle_turn_timeout g uid protect ds c).winner = none) ∧
      ((forfeit_command g uid protect ds c).winner = none) ∧
      ((handle_turn_timeout g uid protect ds c).gamesPlayed = []) ∧
      ((forfeit_command g uid protect ds c).gamesPlayed = [])) := by
  subst hid
  have hguard : (!g.is_running || cp.id != cp.id) = false := by
    simp [hrun]
  have hng : (!g.is_running) = false := by
    rw [hrun]
    rfl
  -- shared projection facts for the timeout chain
  have hproj := reset_streak_proj
    ({ g with eliminated_players := setAdd g.eliminated_players cp.id }) cp.id protect
  have hf := next_turn_frame
    (({ g with eliminated_players := setAdd g.eliminated_players cp.id
      }).reset_streak cp.id protect).1 false (ds 0)
  -- shared projection facts for the forfeit chain
  have hprojf := reset_streak_proj
    ({ g.cancel_timeout with
        eliminated_players := setAdd g.cancel_timeout.eliminated_players cp.id })
      cp.id protect
  have hff := next_turn_frame
    (({ g.cancel_timeout with
        eliminated_players := setAdd g.cancel_timeout.eliminated_players cp.id
      }).reset_streak cp.id protect).1 false (ds 0)
  constructor
  · -- game-over case
    intro hover
    unfold handle_turn_timeout forfeit_command
    simp only [hcp, hguard, hng, Bool.false_eq_true, if_false, bne_self_eq_false]
    set g3 := ((({ g with eliminated_players := setAdd g.eliminated_players cp.id
      }).reset_streak cp.id protect).1.next_turn false (ds 0)).1 with hg3
    set g4f := ((({ g.cancel_timeout with
        eliminated_players := setAdd g.cancel_timeout.eliminated_players cp.id
      }).reset_streak cp.id protect).1.next_turn false (ds 0)).1 with hg4
    have hp3 : g3.players = g.players := by
      rw [hg3, hf.1, hproj.1]
    have he3 : g3.eliminated_players = setAdd g.eliminated_players cp.id := by
      rw [hg3, hf.2.2.2.2.1, hproj.2.1]
    have hp4 : g4f.players = g.players := by
      rw [hg4, hff.1, hprojf.1]
      simp [GameState.cancel_timeout]
    have he4 : g4f.eliminated_players = setAdd g.eliminated_players cp.id := by
      rw [hg4, hff.2.2.2.2.1, hprojf.2.1]
      simp [GameState.cancel_timeout]
    have hwc3 : g3.players.length - 1 ≤ g3.eliminated_players.length := by
      rw [hp3, he3]
      exact hover
    have hwc4 : g4f.players.length - 1 ≤ g4f.eliminated_players.length := by
      rw [hp4, he4]
      exact hover
    rw [if_pos hwc3, if_pos hwc4]
    have hfind3 : g3.players.find? (fun p => !(g3.eliminated_players.contains p.id)) =
        g.players.find? (fun p => !((setAdd g.eliminated_players cp.id).contains p.id)) := by
      rw [hp3]
      simp only [he3]
    have hfind4 : g4f.players.find? (fun p => !(g4f.eliminated_players.contains p.id)) =
        g.players.find? (fun p => !((setAdd g.eliminated_players cp.id).contains p.id)) := by
      rw [hp4]
      simp only [he4]
    cases hw : g.players.find?
        (fun p => !((setAdd g.eliminated_players cp.id).contains p.id)) with
    | none =>
      rw [hw] at hfind3 hfind4
      simp only [hfind3, hfind4]
      refine ⟨?_, ?_, ?_, ?_, ?_, ?_, ?_⟩ <;>
        first
          | trivial
          | simp [GameState.reset]
    | some w =>
      rw [hw] at hfind3 hfind4
      simp only [hfind3, hfind4]
      refine ⟨?_, ?_, ?_, ?_, ?_, ?_, ?_⟩ <;>
        first
          | trivial
          | (simp [GameState.reset]; done)
          | (intro w2 hww; simp [hp3])
  · -- continuing case
    intro hnd hcont
    have htc := timeout_continuing_spec g cp.id protect ds c cp hrun hcp rfl hnd hcont
    refine ⟨htc.1, ?_, htc.2.1, ?_, htc.2.2.1, ?_⟩ <;>
      · unfold forfeit_command
        simp only [hcp, hng, Bool.false_eq_true, if_false, bne_self_eq_false]
        set g4f := ((({ g.cancel_timeout with
            eliminated_players := setAdd g.cancel_timeout.eliminated_players cp.id
          }).reset_streak cp.id protect).1.next_turn false (ds 0)).1 with hg4
        have hp4 : g4f.players = g.players := by
          rw [hg4, hff.1, hprojf.1]
          simp [GameState.cancel_timeout]
        have he4 : g4f.eliminated_players = setAdd g.eliminated_players cp.id := by
          rw [hg4, hff.2.2.2.2.1, hprojf.2.1]
          simp [GameState.cancel_timeout]
        have hr4 : g4f.is_running = true := by
          rw [hg4, hff.2.2.2.2.2.1, hprojf.2.2.2.1]
          simpa [GameState.cancel_timeout] using hrun
        have hwc : ¬(g4f.players.length - 1 ≤ g4f.eliminated_players.length) := by
          rw [hp4, he4]
          omega
        rw [if_neg hwc]
        have hsf := skipElim_frame g4f.players.length g4f ds 1
        cases hnp : (skipElim g4f ds 1 g4f.players.length).players[
            (skipElim g4f ds 1 g4f.players.length).current_player_index]? <;>
          simp only [hnp] <;>
          first
            | rfl
            | (rw [hsf.2.2]; exact hr4)

/-- Witness for C4's amended theorem: in the two-player game g0, player
A's elimination ends the game on both paths; the timeout path credits a
games-played increment to both roster members, the forfeit path to
nobody. -/
theorem C4_witness :
    ((handle_turn_timeout g0 1 0 (fun _ => ⟨'a', 3⟩) 'a').state.is_running = false) ∧
    ((forfeit_command g0 1 0 (fun _ => ⟨'a', 3⟩) 'a').state.is_running = false) ∧
    ((handle_turn_timeout g0 1 0 (fun _ => ⟨'a', 3⟩) 'a').winner =
      g0.players.find? (fun p => !((setAdd g0.eliminated_players 1).contains p.id))) ∧
    ((forfeit_command g0 1 0 (fun _ => ⟨'a', 3⟩) 'a').winner =
      g0.players.find? (fun p => !((setAdd g0.eliminated_players 1).contains p.id))) ∧
    ((handle_turn_timeout g0 1 0 (fun _ => ⟨'a', 3⟩) 'a').gamesPlayed =
      g0.players.map Player.id) ∧
    ((forfeit_command g0 1 0 (fun _ => ⟨'a', 3⟩) 'a').gamesPlayed = []) := by
  have h := (C4_game_over_exactly g0 1 0 (fun _ => ⟨'a', 3⟩) 'a' pA rfl rfl rfl).1
    (by decide)
  exact ⟨h.1, h.2.1, h.2.2.1, h.2.2.2.1, h.2.2.2.2.1 pB (by decide), h.2.2.2.2.2.2⟩
